import Mathlib

/-!
Verification of the natural-language specification of `recollstatus.py`
against a shallow embedding of the program.

The embedding translates each Python function of `src/recollstatus.py` into
a Lean definition of the same name.  Python exceptions become an explicit
`Except PyErr` result; the filesystem and the `os.kill` probe become
explicit inputs (file contents, modification times, a kill oracle).
Text processing is carried out on `List Char` with structurally recursive
functions so that every concrete instance evaluates by `decide` / `rfl`.
-/

namespace Recollstatus

/-- Python exceptions that the program can raise, by raise site. -/
inductive PyErr where
  /-- `IOError` from `open()` (lines 14-21); `missing = true` models `errno == 2`. -/
  | ioError (missing : Bool)
  /-- `ValueError` from `int(recoll_pid_string)` (line 28); the spec's `MalformedPidError`. -/
  | valueErrorInt (s : String)
  /-- `ValueError` from unpacking `line.split('=', 1)` into `key, val` (line 84);
  the spec's `ParseError` naming the offending logical line. -/
  | valueErrorUnpack (line : String)
  /-- `ValueError` from `fp.seek(0)` on a closed file object (line 72). -/
  | valueErrorClosedFile
  /-- `KeyError` from a dict lookup (`idxstatus['phase']`, `DbIxStatus[...]`, `idxstatus['fn']`). -/
  | keyError (k : String)
  /-- `OSError` from `os.kill` with an errno other than `ESRCH` (line 40). -/
  | osError
  /-- `UnboundLocalError`: the named local is read without having been assigned
  (lines 59 and 66 when `os.path.isfile` is false). -/
  | unboundLocal (v : String)
deriving DecidableEq, Repr

/-- Result of the zero-signal probe `os.kill(pid, 0)` (line 34). -/
inductive KillResult where
  /-- The probe succeeds: a process with that id exists. -/
  | ok
  /-- `OSError` with `errno == errno.ESRCH`: no such process. -/
  | esrch
  /-- `OSError` with any other errno. -/
  | err
deriving DecidableEq, Repr

/-- A Python value, for the `in` test at line 95 which compares the string
`idxstatus['phase']` against the integer literals `[0, 4, 5]`. -/
inductive PyVal where
  | str (s : String)
  | int (n : Int)
deriving DecidableEq, Repr

/-- Python `==` between values of these two types: equal only within the same
type; a `str` never equals an `int`. -/
def pyEq : PyVal → PyVal → Bool
  | .str a, .str b => a == b
  | .int a, .int b => a == b
  | _, _ => false

/-- Python `v in list`, which tests membership with `==`. -/
def pyIn (v : PyVal) (l : List PyVal) : Bool :=
  l.any (pyEq v)

/-! ## Python string primitives (over `List Char`) -/

/-- The ASCII characters Python's default `str.strip()` removes. -/
def pyIsSpace (c : Char) : Bool :=
  c == ' ' || c == '\t' || c == '\n' || c == '\r' || c == '\x0b' || c == '\x0c'

/-- Python `str.strip()` with no argument: drop whitespace from both ends. -/
def pyStrip (l : List Char) : List Char :=
  ((l.dropWhile pyIsSpace).reverse.dropWhile pyIsSpace).reverse

/-- `text.replace('\\\n', '')` (line 81): delete every backslash-newline pair,
scanning left to right. -/
def removeBackslashNewline : List Char → List Char
  | [] => []
  | '\\' :: '\n' :: rest => removeBackslashNewline rest
  | c :: rest => c :: removeBackslashNewline rest

/-- Helper for `pySplitlines`; `cur` holds the current line reversed. -/
def pySplitlinesAux (cur : List Char) : List Char → List (List Char)
  | [] => if cur = [] then [] else [cur.reverse]
  | '\n' :: rest => cur.reverse :: pySplitlinesAux [] rest
  | c :: rest => pySplitlinesAux (c :: cur) rest

/-- Python `str.splitlines()` (line 82), restricted to `'\n'` line boundaries
(the progress file is newline-separated; the other Unicode boundaries Python
also recognises do not occur).  No trailing empty line is produced for a
text ending in a newline. -/
def pySplitlines (l : List Char) : List (List Char) :=
  pySplitlinesAux [] l

/-- Split at the first `'='`, as `line.split('=', 1)` does: `none` when the
line has no `'='` (the one-element split that makes the unpack at line 84
raise), otherwise the parts before and after the first `'='`. -/
def findEq : List Char → Option (List Char × List Char)
  | [] => none
  | '=' :: rest => some ([], rest)
  | c :: rest => (findEq rest).map (fun p => (c :: p.1, p.2))

/-- `'\n'.join(...)` over already-built lines (lines 127, 151). -/
def joinLines : List String → String
  | [] => ""
  | [l] => l
  | l :: rest => l ++ "\n" ++ joinLines rest

/-! ## Python `int()` -/

/-- Numeric value of an ASCII digit. -/
def digitVal (c : Char) : Nat := c.toNat - 48

/-- Digits of an integer literal after the first digit: Python allows a single
underscore between digits (`int("1_0") == 10`) but rejects leading, trailing
or doubled underscores. -/
def pyIntDigits (acc : Nat) : List Char → Option Nat
  | [] => some acc
  | '_' :: rest =>
    match rest with
    | [] => none
    | d :: rest' => if d.isDigit then pyIntDigits (acc * 10 + digitVal d) rest' else none
  | c :: rest => if c.isDigit then pyIntDigits (acc * 10 + digitVal c) rest else none

/-- CPython `int(s)` on ASCII text: surrounding whitespace is stripped, one
optional sign is allowed, then a non-empty digit string (underscores allowed
singly between digits).  Unicode digits/whitespace are not modelled.
`none` models the `ValueError` at line 28. -/
def pyInt (s : String) : Option Int :=
  match pyStrip s.data with
  | [] => none
  | '+' :: rest =>
    match rest with
    | [] => none
    | c :: rest' => if c.isDigit then (pyIntDigits (digitVal c) rest').map Int.ofNat else none
  | '-' :: rest =>
    match rest with
    | [] => none
    | c :: rest' =>
      if c.isDigit then (pyIntDigits (digitVal c) rest').map (fun n => -(n : Int)) else none
  | c :: rest => if c.isDigit then (pyIntDigits (digitVal c) rest).map Int.ofNat else none

/-! ## Liveness prober: `recollindex_running` (lines 12-42) -/

/-- `recollindex_running`.  `pidOpen` is the combined result of
`open(pid_filepath)` + `.read()` (lines 15, 23): an `IOError` or the file's
text.  `kill` is the `os.kill(pid, 0)` oracle.  The logging calls are
side-effect-free for the result and are not modelled. -/
def recollindex_running (pidOpen : Except PyErr String) (kill : Int → KillResult) :
    Except PyErr Bool :=
  match pidOpen with
  | .error e => .error e
  | .ok recoll_pid_string =>
    if recoll_pid_string = "" then
      .ok false
    else
      match pyInt recoll_pid_string with
      | none => .error (.valueErrorInt recoll_pid_string)
      | some recoll_pid =>
        match kill recoll_pid with
        | .ok => .ok true
        | .esrch => .ok false
        | .err => .error .osError

/-! ## Timestamp helpers (lines 44-66) -/

/-- `latest_query` (lines 44-52): the `history` file's mtime if it exists.
Instants are modelled as natural-number timestamps. -/
def latest_query (historyMTime : Option Nat) (now : Nat) : Option Nat × Nat :=
  (historyMTime, now)

/-- `running_time` (lines 54-59).  When `flintlock` does not exist the body of
the `if` is skipped and the `return` reads the never-assigned local
`date_recollindex_started`, raising `UnboundLocalError`. -/
def running_time (flintlockMTime : Option Nat) (now : Nat) : Except PyErr (Nat × Nat) :=
  match flintlockMTime with
  | some t => .ok (t, now)
  | none => .error (.unboundLocal "date_recollindex_started")

/-- `since_last_run` (lines 61-66): same shape as `running_time` over
`idxstatus.txt`, with local `date_recollindex_last_started`. -/
def since_last_run (idxstatusMTime : Option Nat) (now : Nat) : Except PyErr (Nat × Nat) :=
  match idxstatusMTime with
  | some t => .ok (t, now)
  | none => .error (.unboundLocal "date_recollindex_last_started")

/-! ## Ordered mapping (`collections.OrderedDict`) -/

/-- `OrderedDict` with string keys and values, as an association list. -/
abbrev OD := List (String × String)

/-- `od[k] = v`: assigning an existing key updates it in place (keeping its
position); a new key is appended at the end. -/
def odInsert : OD → String → String → OD
  | [], k, v => [(k, v)]
  | (k', v') :: rest, k, v =>
    if k' = k then (k, v) :: rest else (k', v') :: odInsert rest k v

/-- `k in od` / `od[k]` lookup as an option. -/
def odFind : List (String × String) → String → Option String
  | [], _ => none
  | (k', v') :: rest, k => if k' = k then some v' else odFind rest k

/-- `d[k]` on a dict: `KeyError` when the key is absent. -/
def dictGet (d : List (String × String)) (k : String) : Except PyErr String :=
  match odFind d k with
  | some v => .ok v
  | none => .error (.keyError k)

/-! ## `write_tempfile` (lines 68-74) -/

/-- `write_tempfile(fp, prefix)`: creates a named temporary file, then does
`fp.seek(0)` and copies `fp.read()` into it.  When `fp` is already closed the
seek raises `ValueError` and no content is copied.  `.ok ()` means the debug
copy of the content was written.  Both call sites (lines 90 and 97) run after
the `with` block at lines 79-80 has closed `idxstatus_fp`, so they always pass
a closed handle. -/
def write_tempfile (fpClosed : Bool) : Except PyErr Unit :=
  if fpClosed then .error .valueErrorClosedFile else .ok ()

/-! ## Progress-file parser: `parse_idxstatus` (lines 76-99) -/

/-- `key, val = (x.strip() for x in line.split('=', 1))` (line 84): a line
with no `'='` raises the unpack `ValueError`; otherwise both parts are
stripped. -/
def splitKV (line : List Char) : Except PyErr (String × String) :=
  match findEq line with
  | none => .error (.valueErrorUnpack (String.mk line))
  | some p => .ok (String.mk (pyStrip p.1), String.mk (pyStrip p.2))

/-- The `for line in text_wrapped.splitlines()` loop (lines 82-93).  The
second component records whether a debug copy of the input was written by
`write_tempfile`.  On an unpack failure with `write_tempfiles` set, the
helper is called first; if the helper itself raises, its exception propagates
instead of the pending one (Python replaces the exception in flight), else
the bare `raise` at line 91 re-raises the original unpack error. -/
def parse_lines (write_tempfiles fpClosed : Bool) :
    List (List Char) → OD → Except PyErr OD × Bool
  | [], idxstatus => (.ok idxstatus, false)
  | line :: rest, idxstatus =>
    match splitKV line with
    | .error e =>
      if write_tempfiles then
        (match write_tempfile fpClosed with
         | .error e' => (.error e', false)
         | .ok _ => (.error e, true))
      else (.error e, false)
    | .ok kv => parse_lines write_tempfiles fpClosed rest (odInsert idxstatus kv.1 kv.2)

/-- The integer list at line 95: `[0, 4, 5]`. -/
def phaseSentinels : List PyVal := [.int 0, .int 4, .int 5]

/-- `parse_idxstatus(idxstatus_path, write_tempfiles=True)` with the file's
text supplied directly (the `open` at line 79 is modelled by the caller).
After the loop, line 95 evaluates `idxstatus['phase']` — a `KeyError` when
absent — and tests it with `in [0, 4, 5]`; on a hit `write_tempfile` runs on
the closed handle.  The second component reports whether a debug copy of the
content was written. -/
def parse_idxstatus (text : String) (write_tempfiles : Bool) : Except PyErr OD × Bool :=
  match parse_lines write_tempfiles true (pySplitlines (removeBackslashNewline text.data)) [] with
  | (.error e, copied) => (.error e, copied)
  | (.ok idxstatus, copied) =>
    match odFind idxstatus "phase" with
    | none => (.error (.keyError "phase"), copied)
    | some phase =>
      if pyIn (.str phase) phaseSentinels then
        match write_tempfile true with
        | .error e => (.error e, copied)
        | .ok _ => (.ok idxstatus, true)
      else (.ok idxstatus, copied)

/-! ## Status formatter: `format_idxstatus` (lines 101-127) -/

/-- The fixed phase table (lines 102-110). -/
def DbIxStatus : List (String × String) :=
  [("0", "DBIXS_NONE"), ("1", "DBIXS_FILES"), ("2", "DBIXS_PURGE"), ("3", "DBIXS_STEMDB"),
   ("4", "DBIXS_CLOSING"), ("5", "DBIXS_MONITOR"), ("6", "DBIXS_DONE")]

/-- The ordered descriptor table (lines 113-118). -/
def descriptors : List (String × String) :=
  [("docsdone", "Documents updated:"),
   ("filesdone", "Files tested:"),
   ("filerrors", "Failed files:"),
   ("totfiles", "Total files in index:"),
   ("dbtotdocs", "Starting number of indexed documents:")]

/-- `format_idxstatus` as the list of lines it accumulates in `formatted`
before the final join (lines 111-125). -/
def format_lines (idxstatus : OD) : Except PyErr (List String) := do
  let phase ← dictGet idxstatus "phase"
  let name ← dictGet DbIxStatus phase
  let formatted := ["DbIxStatus is " ++ phase ++ ": " ++ name]
  let formatted := descriptors.foldl
    (fun acc fd =>
      match odFind idxstatus fd.1 with
      | some v => acc ++ [fd.2 ++ " " ++ v]
      | none => acc) formatted
  if phase = "1" then
    let fn ← dictGet idxstatus "fn"
    pure (formatted ++ ["Indexing this file: " ++ fn])
  else
    pure (formatted ++ ["Not indexing files now."])

/-- `format_idxstatus` (line 127): the lines joined with newlines. -/
def format_idxstatus (idxstatus : OD) : Except PyErr String :=
  (format_lines idxstatus).map joinLines

/-! ## Status composer: `recollstatus` (lines 129-151) -/

/-- The filesystem snapshot `recollstatus` reads. -/
structure Fs where
  /-- Result of opening and reading `index.pid`. -/
  pidOpen : Except PyErr String
  /-- The `os.kill(pid, 0)` oracle. -/
  kill : Int → KillResult
  /-- `xapiandb/flintlock` mtime, if the file exists. -/
  flintlockMTime : Option Nat
  /-- `idxstatus.txt` mtime, if the file exists. -/
  idxstatusMTime : Option Nat
  /-- Result of opening and reading `idxstatus.txt`. -/
  idxstatusOpen : Except PyErr String
  /-- `history` mtime, if the file exists. -/
  historyMTime : Option Nat
  /-- `datetime.datetime.now()`. -/
  now : Nat

/-- Rendering of a `timedelta`; the numeric timestamp difference stands in
for Python's textual form (no claim depends on the exact rendering). -/
def fmtDuration (d : Int) : String := toString d

/-- Rendering of a `datetime` (`.ctime()` at line 141 and line 148); the
numeric timestamp stands in for the textual form. -/
def fmtInstant (t : Nat) : String := toString t

/-- `recollstatus(recoll_dir)` (lines 129-151). -/
def recollstatus (fs : Fs) : Except PyErr String := do
  let running ← recollindex_running fs.pidOpen fs.kill
  let status ←
    if running then do
      let st := ["recollindex is running"]
      let startThen ← running_time fs.flintlockMTime fs.now
      let st := st ++
        [" recollindex has been running for " ++
          fmtDuration ((startThen.2 : Int) - startThen.1)]
      let text ← fs.idxstatusOpen
      let idx ← (parse_idxstatus text true).1
      let f ← format_idxstatus idx
      pure (st ++ [f])
    else do
      let st := ["recollindex is not running"]
      let lastThen ← since_last_run fs.idxstatusMTime fs.now
      pure (st ++
        [" recollindex was last started on " ++ fmtInstant lastThen.1,
         " time since recollindex last started: " ++
           fmtDuration ((lastThen.2 : Int) - lastThen.1)])
  let q := latest_query fs.historyMTime fs.now
  let status := match q.1 with
    | some t => status ++
        ["recoll database last queried on: " ++ fmtInstant t,
         " which was " ++ fmtDuration ((q.2 : Int) - t) ++ " ago."]
    | none => status
  pure (joinLines status)

/-! ## Derived spec-side definitions used by the claim statements -/

/-- The middle block of the formatted output: one line per descriptor field
present in the mapping, in table order. -/
def midLines (m : OD) : List String :=
  descriptors.filterMap (fun fd => (odFind m fd.1).map (fun v => fd.2 ++ " " ++ v))

/-- The seven phase codes of the fixed table. -/
def phaseCodes : List String := ["0", "1", "2", "3", "4", "5", "6"]

/-- The logical lines the parser iterates over: continuation-joined, then
split at newlines. -/
def logical_lines (text : String) : List (List Char) :=
  pySplitlines (removeBackslashNewline text.data)

/-- The first logical line with no equals sign, if any. -/
def firstBadLine (text : String) : Option (List Char) :=
  (logical_lines text).find? (fun l => (findEq l).isNone)

/-- Both components of an entry are fully stripped. -/
def TrimmedPair (kv : String × String) : Prop :=
  pyStrip kv.1.data = kv.1.data ∧ pyStrip kv.2.data = kv.2.data

/-! ## Helper lemmas -/

/-- A string phase value is never `==` to an integer, so the `in [0, 4, 5]`
test at line 95 is false for every phase string. -/
theorem pyIn_str_phaseSentinels (s : String) : pyIn (.str s) phaseSentinels = false := rfl

theorem foldl_mid (m : OD) (ds : List (String × String)) (acc : List String) :
    ds.foldl (fun acc fd =>
      match odFind m fd.1 with
      | some v => acc ++ [fd.2 ++ " " ++ v]
      | none => acc) acc
    = acc ++ ds.filterMap (fun fd => (odFind m fd.1).map (fun v => fd.2 ++ " " ++ v)) := by
  induction ds generalizing acc with
  | nil => simp
  | cons fd ds ih =>
    cases h : odFind m fd.1 with
    | none => simp [List.foldl_cons, List.filterMap_cons, h, ih]
    | some v => simp [List.foldl_cons, List.filterMap_cons, h, ih]

theorem format_lines_eq (m : OD) (p name : String)
    (hp : odFind m "phase" = some p) (hname : odFind DbIxStatus p = some name) :
    format_lines m = (if p = "1" then
        (match odFind m "fn" with
         | some fn => .ok ((("DbIxStatus is " ++ p ++ ": " ++ name) :: midLines m)
             ++ ["Indexing this file: " ++ fn])
         | none => .error (.keyError "fn"))
      else .ok ((("DbIxStatus is " ++ p ++ ": " ++ name) :: midLines m)
          ++ ["Not indexing files now."])) := by
  have h1 : dictGet m "phase" = .ok p := by simp [dictGet, hp]
  have h2 : dictGet DbIxStatus p = .ok name := by simp [dictGet, hname]
  by_cases hp1 : p = "1"
  · subst hp1
    cases hfn : odFind m "fn" with
    | some fn =>
      have h3 : dictGet m "fn" = .ok fn := by simp [dictGet, hfn]
      simp [format_lines, h1, h2, h3, hfn, midLines, foldl_mid, Except.instMonad, Except.bind, Except.map, Except.pure, bind, pure, Functor.map]
    | none =>
      have h3 : dictGet m "fn" = .error (.keyError "fn") := by simp [dictGet, hfn]
      simp [format_lines, h1, h2, h3, hfn, midLines, foldl_mid, Except.instMonad, Except.bind, Except.map, Except.pure, bind, pure, Functor.map]
  · simp [format_lines, h1, h2, hp1, midLines, foldl_mid, Except.instMonad, Except.bind, Except.map, Except.pure, bind, pure, Functor.map]

theorem odFind_DbIxStatus_eq_none (p : String) (h : p ∉ phaseCodes) :
    odFind DbIxStatus p = none := by
  simp only [phaseCodes, List.mem_cons, List.not_mem_nil, or_false, not_or] at h
  obtain ⟨h0, h1, h2, h3, h4, h5, h6⟩ := h
  simp [DbIxStatus, odFind, Ne.symm h0, Ne.symm h1, Ne.symm h2, Ne.symm h3,
    Ne.symm h4, Ne.symm h5, Ne.symm h6]

/-- With the closed handle the parser actually passes, the debug-copy flag of
the loop is always false. -/
theorem parse_lines_snd_false (w : Bool) (lines : List (List Char)) (acc : OD) :
    (parse_lines w true lines acc).2 = false := by
  induction lines generalizing acc with
  | nil => rfl
  | cons l rest ih =>
    cases h : splitKV l with
    | error e => cases w <;> simp [parse_lines, h, write_tempfile]
    | ok kv => simp [parse_lines, h, ih]

theorem parse_lines_first_bad (lines : List (List Char)) (line : List Char) (acc : OD)
    (h : lines.find? (fun l => (findEq l).isNone) = some line) :
    parse_lines false true lines acc = (.error (.valueErrorUnpack (String.mk line)), false)
    ∧ parse_lines true true lines acc = (.error .valueErrorClosedFile, false) := by
  induction lines generalizing acc with
  | nil => simp [List.find?] at h
  | cons l rest ih =>
    by_cases hl : (findEq l).isNone
    · simp only [List.find?, hl, Option.some.injEq] at h
      subst h
      cases hfind : findEq l with
      | some p => simp [hfind] at hl
      | none => simp [parse_lines, splitKV, hfind, write_tempfile]
    · simp only [List.find?, Bool.not_eq_true] at hl
      simp only [List.find?, hl] at h
      cases hfind : findEq l with
      | none => simp [hfind] at hl
      | some p => simpa [parse_lines, splitKV, hfind] using ih _ h

theorem dropWhile_self {α : Type} (p : α → Bool) (l : List α) :
    List.dropWhile p (List.dropWhile p l) = List.dropWhile p l := by
  induction l with
  | nil => rfl
  | cons a t ih =>
    by_cases h : p a
    · simp [List.dropWhile_cons, h, ih]
    · simp [List.dropWhile_cons, h]

theorem exists_append_dropWhile {α : Type} (p : α → Bool) (l : List α) :
    ∃ t, t ++ l.dropWhile p = l := by
  induction l with
  | nil => exact ⟨[], rfl⟩
  | cons a t ih =>
    by_cases h : p a
    · obtain ⟨s, hs⟩ := ih
      exact ⟨a :: s, by simp [List.dropWhile_cons, h, hs]⟩
    · exact ⟨[], by simp [List.dropWhile_cons, h]⟩

theorem dropWhile_length_le {α : Type} (p : α → Bool) (l : List α) :
    (l.dropWhile p).length ≤ l.length := by
  induction l with
  | nil => exact Nat.le_refl 0
  | cons a t ih =>
    by_cases h : p a
    · rw [List.dropWhile_cons, if_pos h]
      exact Nat.le_trans ih (Nat.le_succ _)
    · rw [List.dropWhile_cons, if_neg h]

theorem dropWhile_eq_self_of_initial {α : Type} (p : α → Bool) (l₁ l₂ : List α)
    (h : ∃ s, l₁ ++ s = l₂) (h₂ : l₂.dropWhile p = l₂) : l₁.dropWhile p = l₁ := by
  cases l₁ with
  | nil => rfl
  | cons a t =>
    obtain ⟨s, hs⟩ := h
    by_cases hp : p a
    · exfalso
      rw [← hs, List.cons_append, List.dropWhile_cons, if_pos hp] at h₂
      have hlen := dropWhile_length_le p (t ++ s)
      rw [h₂] at hlen
      simp at hlen
    · rw [List.dropWhile_cons, if_neg hp]

/-- Python strip is idempotent: a stripped string strips to itself. -/
theorem pyStrip_idem (l : List Char) : pyStrip (pyStrip l) = pyStrip l := by
  have h1 : (pyStrip l).dropWhile pyIsSpace = pyStrip l := by
    apply dropWhile_eq_self_of_initial pyIsSpace (pyStrip l) (l.dropWhile pyIsSpace)
    · obtain ⟨t, ht⟩ := exists_append_dropWhile pyIsSpace (l.dropWhile pyIsSpace).reverse
      refine ⟨t.reverse, ?_⟩
      unfold pyStrip
      rw [← List.reverse_append, ht, List.reverse_reverse]
    · exact dropWhile_self pyIsSpace l
  have h2 : (pyStrip l).reverse.dropWhile pyIsSpace = (pyStrip l).reverse := by
    unfold pyStrip
    rw [List.reverse_reverse]
    exact dropWhile_self pyIsSpace (l.dropWhile pyIsSpace).reverse
  calc pyStrip (pyStrip l)
      = (((pyStrip l).dropWhile pyIsSpace).reverse.dropWhile pyIsSpace).reverse := rfl
    _ = ((pyStrip l).reverse.dropWhile pyIsSpace).reverse := by rw [h1]
    _ = (pyStrip l).reverse.reverse := by rw [h2]
    _ = pyStrip l := List.reverse_reverse _

theorem odInsert_forall (P : String × String → Prop) :
    ∀ (m : OD) (k v : String),
      (∀ kv ∈ m, P kv) → P (k, v) → ∀ kv ∈ odInsert m k v, P kv
  | [], k, v, _, hkv => by
    intro kv h
    simp [odInsert] at h
    subst h
    exact hkv
  | (k', v') :: rest, k, v, hm, hkv => by
    intro kv hmem
    rw [odInsert] at hmem
    by_cases hk : k' = k
    · rw [if_pos hk] at hmem
      rcases List.mem_cons.mp hmem with rfl | hmem'
      · exact hkv
      · exact hm kv (List.mem_cons_of_mem _ hmem')
    · rw [if_neg hk] at hmem
      rcases List.mem_cons.mp hmem with rfl | hmem'
      · exact hm _ (List.mem_cons_self _ _)
      · exact odInsert_forall P rest k v (fun kv h => hm kv (List.mem_cons_of_mem _ h))
          hkv kv hmem'

/-- Every entry of a mapping built by the loop from a trimmed accumulator is
trimmed: keys and values go through strip before insertion. -/
theorem parse_lines_trimmed (w : Bool) :
    ∀ (lines : List (List Char)) (acc m : OD),
      (∀ kv ∈ acc, TrimmedPair kv) →
      (parse_lines w true lines acc).1 = .ok m →
      ∀ kv ∈ m, TrimmedPair kv := by
  intro lines
  induction lines with
  | nil =>
    intro acc m hacc hok
    obtain rfl : acc = m := by simpa [parse_lines] using hok
    exact hacc
  | cons l rest ih =>
    intro acc m hacc hok
    cases hsp : splitKV l with
    | error e =>
      simp only [parse_lines, hsp] at hok
      cases w <;> simp [write_tempfile] at hok
    | ok kv' =>
      simp only [parse_lines, hsp] at hok
      refine ih (odInsert acc kv'.1 kv'.2) m ?_ hok
      apply odInsert_forall _ _ _ _ hacc
      cases hfe : findEq l with
      | none => rw [splitKV, hfe] at hsp; exact absurd hsp (by simp)
      | some pr =>
        rw [splitKV, hfe] at hsp
        obtain rfl : kv' = (String.mk (pyStrip pr.1), String.mk (pyStrip pr.2)) := by
          simpa using hsp.symm
        exact ⟨pyStrip_idem pr.1, pyStrip_idem pr.2⟩

/-! ## The claims -/

/-- C1: for a mapping whose phase is one of the seven codes, the first output
line is the header from the fixed table, provided the mapping has an fn entry
whenever the phase is the string 1 (without it the formatter fails on the fn
lookup instead, see the counterexample); for a phase outside the seven codes,
format fails with the KeyError on the phase table (the spec's
UnknownPhaseError). -/
theorem c1_header_and_unknown_phase (m : OD) (p : String)
    (hp : odFind m "phase" = some p) :
    (∀ name, odFind DbIxStatus p = some name → (p = "1" → (odFind m "fn").isSome) →
      ∃ rest, format_lines m = .ok (("DbIxStatus is " ++ p ++ ": " ++ name) :: rest))
    ∧ (p ∉ phaseCodes → format_idxstatus m = .error (.keyError p)) := by
  constructor
  · intro name hname hfn
    rw [format_lines_eq m p name hp hname]
    by_cases hp1 : p = "1"
    · obtain ⟨fn, hfneq⟩ := Option.isSome_iff_exists.mp (hfn hp1)
      rw [if_pos hp1, hfneq]
      exact ⟨midLines m ++ ["Indexing this file: " ++ fn], rfl⟩
    · rw [if_neg hp1]
      exact ⟨midLines m ++ ["Not indexing files now."], rfl⟩
  · intro hout
    have hnone := odFind_DbIxStatus_eq_none p hout
    have h1 : dictGet m "phase" = .ok p := by simp [dictGet, hp]
    have h2 : dictGet DbIxStatus p = .error (.keyError p) := by simp [dictGet, hnone]
    simp [format_idxstatus, format_lines, h1, h2, Except.instMonad, Except.bind,
      Except.map, Except.pure, bind, pure, Functor.map]

/-- C1 counterexample: the claim as stated fails at the mapping with phase 1
and no fn entry — format raises KeyError on fn and produces no output at all,
hence no first line. -/
theorem c1_counterexample :
    format_idxstatus [("phase", "1")] = .error (.keyError "fn") := rfl

/-- C1 witness: at the mapping with phase 2 the header line names
DBIXS_PURGE. -/
theorem c1_witness :
    ∃ rest, format_lines [("phase", "2")]
      = .ok (("DbIxStatus is " ++ "2" ++ ": " ++ "DBIXS_PURGE") :: rest) :=
  (c1_header_and_unknown_phase [("phase", "2")] "2" rfl).1 "DBIXS_PURGE" rfl
    (by decide)

/-- C2 (evaluating the code at the failing input, in general form): whenever
some logical line lacks an equals sign, the loop raises the unpack ValueError
for the first such line; with write_tempfiles false that error is what
parse_idxstatus reports, but with the default write_tempfiles true the
debug-copy helper is handed the closed handle, its seek raises, and that
closed-file ValueError is what parse_idxstatus reports instead.  Either way
no mapping is returned and no debug copy is written. -/
theorem c2_parse_error_masked (text : String) (line : List Char)
    (hbad : firstBadLine text = some line) :
    parse_idxstatus text false = (.error (.valueErrorUnpack (String.mk line)), false)
    ∧ parse_idxstatus text true = (.error .valueErrorClosedFile, false) := by
  have h := parse_lines_first_bad (logical_lines text) line [] hbad
  unfold logical_lines at h
  constructor
  · unfold parse_idxstatus
    rw [h.1]
  · unfold parse_idxstatus
    rw [h.2]

/-- C2 witness: a well-formed line followed by the malformed line bogus. -/
theorem c2_witness :
    parse_idxstatus "phase = 2\nbogus\n" false
      = (.error (.valueErrorUnpack (String.mk "bogus".data)), false)
    ∧ parse_idxstatus "phase = 2\nbogus\n" true
      = (.error .valueErrorClosedFile, false) :=
  c2_parse_error_masked "phase = 2\nbogus\n" "bogus".data (by decide)

/-- C3 (evaluating the code at the failing inputs): parsing a file whose
phase is 0, 4 or 5 succeeds and writes no debug copy — line 95 compares the
string phase value against the integer list, which is always false — and in
fact no run of the parser ever writes a debug copy of its input, because
both call sites hand write_tempfile the handle the with-block already
closed. -/
theorem c3_sentinel_phase_no_copy :
    parse_idxstatus "phase = 0\n" true = (.ok [("phase", "0")], false)
    ∧ parse_idxstatus "phase = 4\n" true = (.ok [("phase", "4")], false)
    ∧ parse_idxstatus "phase = 5\n" true = (.ok [("phase", "5")], false)
    ∧ ∀ (text : String) (w : Bool), (parse_idxstatus text w).2 = false := by
  refine ⟨rfl, rfl, rfl, ?_⟩
  intro text w
  unfold parse_idxstatus
  cases hloop : parse_lines w true (pySplitlines (removeBackslashNewline text.data)) [] with
  | mk res copied =>
    have hc : copied = false := by
      have hs := parse_lines_snd_false w (pySplitlines (removeBackslashNewline text.data)) []
      rw [hloop] at hs
      exact hs
    subst hc
    cases res with
    | error e => simp
    | ok idxstatus =>
      cases hph : odFind idxstatus "phase" with
      | none => simp [hph]
      | some phase => simp [hph, pyIn_str_phaseSentinels, write_tempfile]

/-- C3 witness: the no-debug-copy fact instantiated at a concrete input. -/
theorem c3_witness : (parse_idxstatus "x\n" false).2 = false :=
  c3_sentinel_phase_no_copy.2.2.2 "x\n" false

/-- C4 (evaluating the code at the failing input): write_tempfile on the
closed handle fails with the closed-file ValueError, and on a malformed
input that helper failure is what parse_idxstatus raises — it masks the
original unpack error that the same input produces when the helper is
disabled. -/
theorem c4_helper_failure_masks :
    write_tempfile true = .error .valueErrorClosedFile
    ∧ parse_idxstatus "no equals sign\n" true = (.error .valueErrorClosedFile, false)
    ∧ parse_idxstatus "no equals sign\n" false
      = (.error (.valueErrorUnpack (String.mk "no equals sign".data)), false) :=
  ⟨rfl, rfl, rfl⟩

/-- C5 counterexample: the spec's example input has no phase line, so parse
does not return the totfiles mapping — line 95's lookup of phase raises a
KeyError instead. -/
theorem c5_counterexample :
    (parse_idxstatus "totfiles = 1\\\n00\n" true).1 = .error (.keyError "phase") := rfl

/-- C5 amended: a backslash-newline pair joins the two physical lines before
splitting, and keys and values are stripped; the spec's example text yields
the totfiles entry 100 once a phase line is present, and every entry of any
successfully parsed mapping is fully stripped. -/
theorem c5_continuation_and_trim :
    parse_idxstatus "phase = 6\ntotfiles = 1\\\n00\n" true
      = (.ok [("phase", "6"), ("totfiles", "100")], false)
    ∧ removeBackslashNewline "totfiles = 1\\\n00\n".data = "totfiles = 100\n".data
    ∧ ∀ (text : String) (w : Bool) (m : OD),
        (parse_idxstatus text w).1 = .ok m →
        ∀ kv ∈ m, pyStrip kv.1.data = kv.1.data ∧ pyStrip kv.2.data = kv.2.data := by
  refine ⟨rfl, rfl, ?_⟩
  intro text w m hok
  unfold parse_idxstatus at hok
  cases hloop : parse_lines w true (pySplitlines (removeBackslashNewline text.data)) [] with
  | mk res copied =>
    rw [hloop] at hok
    cases res with
    | error e => simp at hok
    | ok idxstatus =>
      cases hph : odFind idxstatus "phase" with
      | none => simp [hph] at hok
      | some phase =>
        simp only [hph, pyIn_str_phaseSentinels, Bool.false_eq_true, if_false,
          Except.ok.injEq] at hok
        subst hok
        exact parse_lines_trimmed w (pySplitlines (removeBackslashNewline text.data)) []
          idxstatus (by intro kv h; simp at h) (by rw [hloop])

/-- C5 witness: an input with surrounding whitespace in key and value parses
to stripped entries. -/
theorem c5_witness :
    pyStrip "totfiles".data = "totfiles".data
    ∧ pyStrip "100".data = "100".data :=
  c5_continuation_and_trim.2.2 "phase = 6\n  totfiles  =  100  \n" true
    [("phase", "6"), ("totfiles", "100")] rfl ("totfiles", "100") (by decide)

/-- C6: for a mapping whose phase is in the table, the output lines are the
header, then one line per descriptor field present in the mapping in the
fixed table order (absent fields contribute nothing), and the final line is
the fn line exactly when the phase is the string 1 and the fixed sentence
otherwise. -/
theorem c6_fields_and_final (m : OD) (p name : String)
    (hp : odFind m "phase" = some p) (hname : odFind DbIxStatus p = some name) :
    (∀ fn, p = "1" → odFind m "fn" = some fn →
      format_lines m = .ok ((("DbIxStatus is " ++ p ++ ": " ++ name) :: midLines m)
        ++ ["Indexing this file: " ++ fn]))
    ∧ (p ≠ "1" →
      format_lines m = .ok ((("DbIxStatus is " ++ p ++ ": " ++ name) :: midLines m)
        ++ ["Not indexing files now."])) := by
  constructor
  · intro fn hp1 hfn
    rw [format_lines_eq m p name hp hname, if_pos hp1, hfn]
  · intro hp1
    rw [format_lines_eq m p name hp hname, if_neg hp1]

/-- C6 witness: a mapping with phase 1, docsdone and fn formats to the
header, the single present descriptor line, and the fn line. -/
theorem c6_witness :
    format_lines [("phase", "1"), ("docsdone", "10"), ("fn", "/tmp/x.txt")]
      = .ok ["DbIxStatus is 1: DBIXS_FILES", "Documents updated: 10",
             "Indexing this file: /tmp/x.txt"]
    ∧ format_lines [("phase", "2"), ("totfiles", "500")]
      = .ok ["DbIxStatus is 2: DBIXS_PURGE", "Total files in index: 500",
             "Not indexing files now."] :=
  ⟨(c6_fields_and_final [("phase", "1"), ("docsdone", "10"), ("fn", "/tmp/x.txt")]
      "1" "DBIXS_FILES" rfl rfl).1 "/tmp/x.txt" rfl rfl,
   (c6_fields_and_final [("phase", "2"), ("totfiles", "500")]
      "2" "DBIXS_PURGE" rfl rfl).2 (by decide)⟩

/-- C7: an existing but empty pid file makes the prober return false with no
error, and a pid file whose integer names no live process (the zero-signal
probe reports ESRCH) also yields false rather than an error. -/
theorem c7_empty_and_stale_pid :
    (∀ kill : Int → KillResult, recollindex_running (.ok "") kill = .ok false)
    ∧ (∀ (content : String) (pid : Int) (kill : Int → KillResult),
      pyInt content = some pid → kill pid = .esrch →
      recollindex_running (.ok content) kill = .ok false) := by
  constructor
  · intro kill
    rfl
  · intro content pid kill hint hkill
    by_cases hc : content = ""
    · subst hc
      rfl
    · simp [recollindex_running, hc, hint, hkill]

/-- C7 witness: the empty file, and the pid 42 with a probe reporting no such
process. -/
theorem c7_witness :
    recollindex_running (.ok "") (fun _ => .ok) = .ok false
    ∧ recollindex_running (.ok "42") (fun _ => .esrch) = .ok false :=
  ⟨c7_empty_and_stale_pid.1 (fun _ => .ok),
   c7_empty_and_stale_pid.2 "42" 42 (fun _ => .esrch) (by decide) rfl⟩

/-- C8 amended: the prober fails with the int ValueError (the spec's
MalformedPidError) exactly for non-empty content that Python int() cannot
parse, such as abc; a signed numeral such as -5 parses and proceeds to the
liveness probe instead. -/
theorem c8_malformed_pid (content : String) (kill : Int → KillResult)
    (hne : content ≠ "") (hint : pyInt content = none) :
    recollindex_running (.ok content) kill = .error (.valueErrorInt content) := by
  simp [recollindex_running, hne, hint]

/-- C8 counterexample: the content -5 is a valid Python integer, so the
prober does not raise MalformedPidError on it — with a probe reporting no
such process (group), it returns false. -/
theorem c8_counterexample :
    pyInt "-5" = some (-5)
    ∧ recollindex_running (.ok "-5") (fun _ => .esrch) = .ok false
    ∧ recollindex_running (.ok "-5") (fun _ => .esrch)
        ≠ .error (.valueErrorInt "-5") := by
  refine ⟨by decide, rfl, ?_⟩
  intro h
  exact Except.noConfusion h

/-- C8 witness: the content abc cannot be parsed as an integer and raises
the int ValueError. -/
theorem c8_witness :
    recollindex_running (.ok "abc") (fun _ => .ok) = .error (.valueErrorInt "abc") :=
  c8_malformed_pid "abc" (fun _ => .ok) (by decide) (by decide)

/-- C9: when the prober says the daemon is running but flintlock is absent,
the composer aborts with the UnboundLocalError from running_time; when it
says not running but idxstatus.txt is absent, it aborts with the one from
since_last_run; and the error branch of each elapsed-time helper is reached
exactly when the respective file is absent. -/
theorem c9_missing_timestamp_files :
    (∀ fs : Fs, recollindex_running fs.pidOpen fs.kill = .ok true →
      fs.flintlockMTime = none →
      recollstatus fs = .error (.unboundLocal "date_recollindex_started"))
    ∧ (∀ fs : Fs, recollindex_running fs.pidOpen fs.kill = .ok false →
      fs.idxstatusMTime = none →
      recollstatus fs = .error (.unboundLocal "date_recollindex_last_started"))
    ∧ (∀ (mt : Option Nat) (now : Nat),
      ((∃ e, running_time mt now = .error e) ↔ mt = none)
      ∧ ((∃ e, since_last_run mt now = .error e) ↔ mt = none)) := by
  refine ⟨?_, ?_, ?_⟩
  · intro fs hrun hlock
    simp [recollstatus, hrun, hlock, running_time, Except.instMonad, Except.bind,
      Except.map, Except.pure, bind, pure, Functor.map]
  · intro fs hrun hidx
    simp [recollstatus, hrun, hidx, since_last_run, Except.instMonad, Except.bind,
      Except.map, Except.pure, bind, pure, Functor.map]
  · intro mt now
    cases mt <;> simp [running_time, since_last_run]

/-- C9 witness: concrete snapshots with the respective file missing. -/
theorem c9_witness :
    recollstatus ⟨.ok "7", fun _ => .ok, none, some 5, .ok "phase = 2\n", none, 10⟩
      = .error (.unboundLocal "date_recollindex_started")
    ∧ recollstatus ⟨.ok "", fun _ => .ok, some 3, none, .ok "phase = 2\n", none, 10⟩
      = .error (.unboundLocal "date_recollindex_last_started") :=
  ⟨c9_missing_timestamp_files.1 ⟨.ok "7", fun _ => .ok, none, some 5, .ok "phase = 2\n", none, 10⟩
      rfl rfl,
   c9_missing_timestamp_files.2.1 ⟨.ok "", fun _ => .ok, some 3, none, .ok "phase = 2\n", none, 10⟩
      rfl rfl⟩

/-- C10: a successful parse always returns a mapping containing the key
phase, because line 95 looks phase up unconditionally; dually, if the line
loop succeeds but produced no phase entry, parse_idxstatus raises the
KeyError on phase. -/
theorem c10_phase_required :
    (∀ (text : String) (w : Bool) (m : OD),
      (parse_idxstatus text w).1 = .ok m → (odFind m "phase").isSome)
    ∧ (∀ (text : String) (w : Bool) (m : OD),
      (parse_lines w true (pySplitlines (removeBackslashNewline text.data)) []).1 = .ok m →
      odFind m "phase" = none →
      (parse_idxstatus text w).1 = .error (.keyError "phase")) := by
  constructor
  · intro text w m hok
    unfold parse_idxstatus at hok
    cases hloop : parse_lines w true (pySplitlines (removeBackslashNewline text.data)) [] with
    | mk res copied =>
      rw [hloop] at hok
      cases res with
      | error e => simp at hok
      | ok idxstatus =>
        cases hph : odFind idxstatus "phase" with
        | none => simp [hph] at hok
        | some phase =>
          simp only [hph, pyIn_str_phaseSentinels, Bool.false_eq_true, if_false,
            Except.ok.injEq] at hok
          rw [← hok, hph]
          rfl
  · intro text w m hloop hnone
    unfold parse_idxstatus
    cases hl : parse_lines w true (pySplitlines (removeBackslashNewline text.data)) [] with
    | mk res copied =>
      rw [hl] at hloop
      cases res with
      | error e => simp at hloop
      | ok idxstatus =>
        obtain rfl : idxstatus = m := by simpa using hloop
        simp [hnone]

/-- C10 witness: a mapping parsed from a file with a phase line contains
phase; a file of well-formed lines without one makes parse fail with the
KeyError on phase. -/
theorem c10_witness :
    (odFind [("phase", "2")] "phase").isSome
    ∧ (parse_idxstatus "a = 1\n" true).1 = .error (.keyError "phase") :=
  ⟨c10_phase_required.1 "phase = 2\n" true [("phase", "2")] rfl,
   c10_phase_required.2 "a = 1\n" true [("a", "1")] rfl rfl⟩

end Recollstatus
